import Mathlib

/-!
Verification development for the audio segmentation-and-extraction pipeline of
`electron/AudioStreamProcessor.ts` (repository CueMe).

The TypeScript source is shallowly embedded below.  Strings are Lean `String`s
(`String.data : List Char`); JavaScript string indices/lengths are UTF-16 code
units, which coincide with code points for the BMP text this program handles
(all Japanese lexicon entries and punctuation are BMP), so `String.length`
models `.length` faithfully here.  Times (`Date.now()`) are naturals in
milliseconds.  JavaScript regular expressions used by the source are embedded
as explicit structural scanners; each embedding carries a comment relating it
to the regex it models.  Audio sample values (`Float32Array` entries) are
modelled as rationals; the pipeline never computes with the values, only with
the array lengths and concatenation.
-/

namespace CueMe

/-! ## JS-style character and string primitives -/

/-- The character set matched by JavaScript `\s`
(whitespace, including NBSP, the Unicode space block, and BOM). -/
def isJsWs (c : Char) : Bool :=
  c == ' ' || c == '\t' || c == '\n' || c == '\r' ||
  c.toNat == 0x0b || c.toNat == 0x0c || c.toNat == 0xa0 || c.toNat == 0x1680 ||
  (0x2000 ≤ c.toNat && c.toNat ≤ 0x200a) ||
  c.toNat == 0x2028 || c.toNat == 0x2029 || c.toNat == 0x202f ||
  c.toNat == 0x205f || c.toNat == 0x3000 || c.toNat == 0xfeff

/-- `leadsWith p l` : `p` is an initial segment of `l`. -/
def leadsWith : List Char → List Char → Bool
  | [], _ => true
  | _ :: _, [] => false
  | p :: ps, c :: cs => p == c && leadsWith ps cs

/-- `hasSubList p l` : `p` occurs contiguously inside `l`
(JS `String.prototype.includes`). -/
def hasSubList (p : List Char) : List Char → Bool
  | [] => p.isEmpty
  | c :: t => leadsWith p (c :: t) || hasSubList p t

/-- JS `s.includes(pat)`. -/
def strHas (s pat : String) : Bool := hasSubList pat.data s.data

/-- JS `s.endsWith(pat)`. -/
def trailsWith (pat s : String) : Bool :=
  leadsWith pat.data.reverse s.data.reverse

/-- Drop a maximal trailing run of characters satisfying `p`. -/
def dropRightWhile (p : Char → Bool) (l : List Char) : List Char :=
  (l.reverse.dropWhile p).reverse

/-- JS `s.trim()` (strips `\s` at both ends). -/
def jsTrim (s : String) : String :=
  ⟨dropRightWhile isJsWs (s.data.dropWhile isJsWs)⟩

/-- ASCII lower-casing of one character.  JS `toLowerCase()` is full Unicode,
but the pipeline's text is Japanese (caseless) plus ASCII Latin, for which
this is exact. -/
def lowerChar (c : Char) : Char :=
  if 'A' ≤ c && c ≤ 'Z' then Char.ofNat (c.toNat + 32) else c

/-- ASCII upper-casing of one character (see `lowerChar`). -/
def upperChar (c : Char) : Char :=
  if 'a' ≤ c && c ≤ 'z' then Char.ofNat (c.toNat - 32) else c

/-- JS `s.toLowerCase()` on the text this pipeline handles. -/
def jsToLower (s : String) : String := ⟨s.data.map lowerChar⟩

/-- `/[a-zA-Z]/.test` on one character. -/
def isLatinLetter (c : Char) : Bool :=
  ('a' ≤ c && c ≤ 'z') || ('A' ≤ c && c ≤ 'Z')

/-- Split at every character satisfying `p`, keeping empty pieces
(`splitCharsAux p cur l` with accumulator `cur` holding the current piece,
reversed).  Models JS `split` on a one-character-class regex.  The source
always filters out empty pieces right after splitting, so splitting on a
class with `+` (maximal runs) and splitting character-by-character agree at
every use site. -/
def splitCharsAux (p : Char → Bool) : List Char → List Char → List (List Char)
  | cur, [] => [cur.reverse]
  | cur, c :: t =>
    if p c then cur.reverse :: splitCharsAux p [] t
    else splitCharsAux p (c :: cur) t

/-- See `splitCharsAux`. -/
def splitChars (p : Char → Bool) (l : List Char) : List (List Char) :=
  splitCharsAux p [] l

/-- `splitSkipAux sep skip cur l`: split `l` at every occurrence of the
substring `sep` (JS `s.split("sep")`), keeping empty pieces.  `skip` counts
separator characters still to be consumed after a match; `cur` is the current
piece, reversed. -/
def splitSkipAux (sep : List Char) : Nat → List Char → List Char → List (List Char)
  | 0, cur, [] => [cur.reverse]
  | _ + 1, cur, [] => [cur.reverse]
  | 0, cur, c :: t =>
    if leadsWith sep (c :: t) && !sep.isEmpty then
      cur.reverse :: splitSkipAux sep (sep.length - 1) [] t
    else
      splitSkipAux sep 0 (c :: cur) t
  | k + 1, cur, _ :: t => splitSkipAux sep k cur t

/-- JS `s.split(sep)` for a non-empty literal separator string. -/
def splitOnSub (sep : List Char) (l : List Char) : List (List Char) :=
  splitSkipAux sep 0 [] l

/-- Collapse each maximal run of `\s` characters to a single space
(JS `replace(/\s+/g, ' ')`); `inRun` records whether the previous character
was whitespace. -/
def collapseWsGo (inRun : Bool) : List Char → List Char
  | [] => []
  | c :: t =>
    if isJsWs c then
      if inRun then collapseWsGo true t else ' ' :: collapseWsGo true t
    else c :: collapseWsGo false t

/-- JS `Array.prototype.join(' ')`. -/
def joinSpace : List String → String
  | [] => ""
  | [w] => w
  | w :: ws => w ++ " " ++ joinSpace ws

/-! ## Lexicons (AudioStreamProcessor.ts lines 40–54, 503–509, 538, 570, 620–623, 662–671) -/

/-- `fillerWords` (lines 40–49).  The source builds a `Set` from this list;
list membership has the same semantics. -/
def fillerWordsList : List String :=
  ["えー", "あー", "うー", "んー", "そのー", "あのー", "えーっと", "あーと",
   "まあ", "なんか", "ちょっと", "やっぱり", "やっぱ", "だから", "でも",
   "うん", "はい", "そう", "ですね", "ですが", "ただ", "まず", "それで",
   "というか", "てか", "なので", "けど", "けれど", "しかし", "でも",
   "ー", "〜", "う〜ん", "え〜", "あ〜", "そ〜", "ん〜",
   "じゃあ", "では", "それでは", "さて", "ちなみに", "ところで", "えっと", "えと",
   "あの", "その", "とりあえず", "まぁ", "まぁその", "なんていうか"]

/-- `fillerWords.has w`. -/
def isFiller (w : String) : Bool := fillerWordsList.contains w

/-- `questionStarters` (lines 51–54). -/
def questionStarters : List String :=
  ["どう", "どの", "どこ", "いつ", "なぜ", "なん", "何", "だれ", "誰",
   "どちら", "どれ", "いくら", "いくつ", "どのよう", "どんな"]

/-! ## looksLikeQuestion (lines 501–512) -/

/-- The unanchored patterns `/どう.*/ … /いくつ.*/` of `looksLikeQuestion`:
`.*` can be empty, so each test is a containment test. -/
def questionContainsPats : List String :=
  ["どう", "どの", "どこ", "いつ", "なぜ", "なん", "何", "だれ", "誰",
   "どちら", "どれ", "いくら", "いくつ"]

/-- The patterns `/.*ですか/ … /.*のか/`: the leading `.*` can be empty,
so each test is a containment test. -/
def questionEndPats : List String :=
  ["ですか", "ますか", "でしょうか", "かしら", "のか"]

/-- The polite-request alternatives of the anchored pattern on line 508. -/
def politePats : List String :=
  ["教えてください", "お聞かせください", "お願いします", "お願いできますか",
   "お願いしてもいいですか", "いただけますか", "頂けますか", "いただけませんか",
   "てもらえますか", "てくれますか", "てください"]

/-- `/.*(alt1|…|altN)[。?？]?$/.test s`: the string ends with one of the
alternatives, optionally followed by exactly one of `。 ? ？`. -/
def politeEnd (s : String) : Bool :=
  politePats.any fun a =>
    trailsWith a s || trailsWith (a ++ "。") s ||
    trailsWith (a ++ "?") s || trailsWith (a ++ "？") s

/-- `looksLikeQuestion` (lines 501–512): some pattern of `questionPatterns`
matches. -/
def looksLikeQuestion (s : String) : Bool :=
  questionContainsPats.any (fun p => strHas s p) ||
  questionEndPats.any (fun p => strHas s p) ||
  politeEnd s

/-! ## splitIntoQuestions (lines 517–552) -/

/-- The strong sentence delimiters of `/[\n]+|[！？!。]/`. -/
def strongDelim (c : Char) : Bool :=
  c == '\n' || c == '！' || c == '？' || c == '!' || c == '。'

/-- The question-mark class `[？?]`. -/
def qMark (c : Char) : Bool := c == '？' || c == '?'

/-- `connectors` (line 538). -/
def connectors : List String := ["それから", "あと", "次に", "つぎに"]

/-- Last character of a string, if any. -/
def lastCharIs (p : Char → Bool) (s : String) : Bool :=
  match s.data.getLast? with
  | some c => p c
  | none => false

/-- The ending test `/(ですか|ますか|でしょうか|か)$/` on line 551. -/
def interrogEnd (p : String) : Bool :=
  trailsWith "ですか" p || trailsWith "ますか" p ||
  trailsWith "でしょうか" p || trailsWith "か" p

/-- The polite-request ending alternation on line 551 (note: a shorter list
than `politePats`; it lacks お願いしてもいいですか). -/
def politeEndSplit (p : String) : Bool :=
  (["教えてください", "お聞かせください", "お願いします", "お願いできますか",
    "いただけますか", "頂けますか", "いただけませんか", "てもらえますか",
    "てくれますか", "てください"] : List String).any fun a => trailsWith a p

/-- `splitIntoQuestions` (lines 517–552). -/
def splitIntoQuestions (text : String) : List String :=
  if text = "" then []
  else
    -- split by strong sentence delimiters, trim, drop empties
    let parts := ((splitChars strongDelim text.data).map
        (fun l => jsTrim ⟨l⟩)).filter (fun p => p ≠ "")
    -- further split by question marks while keeping content
    let refinedParts := parts.flatMap fun part =>
      let qmSplit := ((splitChars qMark part.data).map
          (fun l => jsTrim ⟨l⟩)).filter (fun p => p ≠ "")
      if 1 < qmSplit.length then qmSplit else [part]
    -- split on connectors
    let finalParts := refinedParts.flatMap fun p =>
      connectors.foldl
        (fun subParts c =>
          subParts.flatMap fun sp =>
            ((splitOnSub c.data sp.data).map (fun l => jsTrim ⟨l⟩)).filter
              (fun s => s ≠ ""))
        [p]
    -- `p.replace(/[、\s]+$/g, '').trim()`, then the question-shape filter
    (finalParts.map
        (fun p => jsTrim ⟨dropRightWhile (fun c => c == '、' || isJsWs c) p.data⟩)).filter
      fun p =>
        2 ≤ p.length &&
          (looksLikeQuestion p || lastCharIs qMark p || interrogEnd p ||
            politeEndSplit p)

/-! ## trimPreface (lines 558–581) -/

/-- Tail check for `/について.*(ですか|ますか|でしょうか|か|[?？]$)/` once a
`について` occurrence has been located: `.` does not match `\n`, so the
non-anchored alternatives must occur in the newline-free run following the
occurrence, and the `[?？]$` alternative additionally requires the whole tail
to be newline-free with the final character a question mark. -/
def keepTopicTailCheck (rest : List Char) : Bool :=
  let nlFree := rest.takeWhile (fun c => c != '\n')
  hasSubList "ですか".data nlFree || hasSubList "ますか".data nlFree ||
  hasSubList "でしょうか".data nlFree || hasSubList "か".data nlFree ||
  (rest.all (fun c => c != '\n') &&
    (match rest.getLast? with
     | some c => c == '?' || c == '？'
     | none => false))

/-- Scan for some occurrence of `について` whose tail passes
`keepTopicTailCheck`. -/
def keepTopicScan : List Char → Bool
  | [] => false
  | c :: t =>
    (leadsWith "について".data (c :: t) &&
      keepTopicTailCheck ((c :: t).drop "について".data.length)) ||
    keepTopicScan t

/-- `keepTopicPatterns.some (p => p.test trimmed)` (lines 564–565). -/
def keepTopic (s : String) : Bool := keepTopicScan s.data

/-- The alternatives of `leadingPrefacePattern` (line 570), in source order
(regex alternation tries them left to right). -/
def prefaceAlts : List String :=
  ["じゃあ", "では", "それでは", "さて", "ちなみに", "ところで", "えっと", "えと",
   "あの", "その", "とりあえず", "まぁ", "まぁその", "なんていうか", "まず",
   "えー", "あー", "うー", "そのー", "えーっと"]

/-- One application of
`result.replace(/^(…alts…)\s+/, '').trim()` when the pattern matches:
the first alternative (in alternation order) that is a prefix and is followed
by at least one `\s` character; the match consumes the alternative and the
maximal whitespace run after it (greedy `\s+`). -/
def stripOncePreface (s : String) : Option String :=
  prefaceAlts.findSome? fun a =>
    let rest := s.data.drop a.data.length
    if leadsWith a.data s.data &&
        (match rest with
         | c :: _ => isJsWs c
         | [] => false) then
      some (jsTrim ⟨rest.dropWhile isJsWs⟩)
    else none

/-- The bounded stripping loop of `trimPreface` (`for (let i = 0; i < 3 …)`):
strip while the anchored pattern matches, at most `n` times. -/
def stripLoop : Nat → String → String
  | 0, s => s
  | n + 1, s =>
    match stripOncePreface s with
    | some s2 => stripLoop n s2
    | none => s

/-- `trimPreface` (lines 558–581). -/
def trimPreface (text : String) : String :=
  let trimmed := jsTrim text
  if trimmed = "" then trimmed
  else if keepTopic trimmed then trimmed
  else stripLoop 3 trimmed

/-! ## refineQuestionAlgorithmically (lines 431–496) -/

/-- The separator class `/[\s、。！？]+/` of refinement step 1. -/
def refineSepChar (c : Char) : Bool :=
  isJsWs c || c == '、' || c == '。' || c == '！' || c == '？'

/-- Refinement step 2 (lines 442–449): drop a word exactly when it equals the
previous word and is a filler (the source pushes when
`word !== lastWord || !fillerWords.has(word)`); `lastW` advances on every
word, pushed or not. -/
def dedupAdj (lastW : String) : List String → List String
  | [] => []
  | w :: ws =>
    if w == lastW && isFiller w then dedupAdj w ws
    else w :: dedupAdj w ws

/-- The alternatives of the trailing-particle pattern on line 459. -/
def particleAlts : List String :=
  ["です", "ます", "だ", "である", "でしょう", "かな", "よね"]

/-- `refined.replace(/\s*(です|ます|だ|である|でしょう|かな|よね)?\s*$/i, '')`:
with everything in the pattern optional, the leftmost match is the longest
suffix of the form `\s* alt? \s*`; since no alternative contains whitespace,
the effect is to strip trailing whitespace, then one trailing alternative if
present, then the whitespace immediately before it.  No two distinct
alternatives can be suffixes of the same string (none is a suffix of
another), so which alternative is stripped is unambiguous. -/
def stripTrailingParticle (s : String) : String :=
  let t : String := ⟨dropRightWhile isJsWs s.data⟩
  match particleAlts.find? (fun a => trailsWith a t) with
  | some a => ⟨dropRightWhile isJsWs (t.data.take (t.data.length - a.data.length))⟩
  | none => t

/-- `refined[0].toUpperCase() + refined.slice(1)` guarded by
`/[a-zA-Z]/.test(refined[0])` (step 7, lines 474–476). -/
def capitalizeLatin (s : String) : String :=
  match s.data with
  | [] => s
  | c :: t => if isLatinLetter c then ⟨upperChar c :: t⟩ else s

/-- Steps 1–7 of `refineQuestionAlgorithmically` (lines 435–476), before the
degeneracy fallback. -/
def refineCore (text : String) : String :=
  let base := jsToLower (jsTrim text)
  -- step 1: tokenize and drop fillers
  let words := ((splitChars refineSepChar base.data).map
      (fun l => (⟨l⟩ : String))).filter (fun w => 0 < w.length)
  let cleanedWords := words.filter (fun w => !isFiller w)
  -- step 2: collapse adjacent duplicate fillers
  let dedup := dedupAdj "" cleanedWords
  -- steps 3–4: rejoin, normalize spacing
  let collapsed := jsTrim ⟨collapseWsGo false (joinSpace dedup).data⟩
  -- step 5: strip trailing punctuation, then trailing particles
  let s5a : String :=
    ⟨dropRightWhile
      (fun c => c == '、' || c == '。' || c == '！' || c == '？' || isJsWs c)
      collapsed.data⟩
  let s5b := stripTrailingParticle s5a
  -- step 6: ensure a question mark when question-shaped
  let s6 :=
    if trailsWith "？" s5b || trailsWith "?" s5b then s5b
    else if questionStarters.any (fun q => strHas s5b q) || looksLikeQuestion s5b
    then s5b ++ "？"
    else s5b
  -- step 7: capitalize a leading Latin letter
  capitalizeLatin s6

/-- `refineQuestionAlgorithmically` (lines 431–496): refinement with the
degeneracy fallback of lines 479–482 (`refined.length < 3`, or fewer than 2
characters once `/[？?]/g` is removed and the result trimmed, returns the
original text). -/
def refineQuestionAlgorithmically (text : String) : String :=
  let refined := refineCore text
  if refined.length < 3 ∨
      (jsTrim ⟨refined.data.filter (fun c => !(c == '？' || c == '?'))⟩).length < 2
  then text
  else refined

end CueMe

namespace CueMe

/-! ## Question extraction per transcript (detectAndRefineQuestions, lines 352–426) -/

/-- A detected question: the validated candidate text and its refinement
(the `DetectedQuestion`/`refinedText` pair emitted by the source; id,
timestamp and confidence are bookkeeping the claims do not mention). -/
structure DQ where
  text : String
  refinedText : String
deriving DecidableEq

/-- Modelled from the spec: `QuestionDetector.detectQuestion` lives in
`electron/QuestionDetector.ts`, which is not under `src/`.  Section 4.5
stage 5 of the spec describes it as "a structural detector (operating on the
whole transcript, may have already isolated a narrower span)"; the narrowing
behavior is unspecified, so the model accepts the whole transcript when the
interrogative shape recognizer accepts it and performs no narrowing. -/
def detectQuestionModel (t : String) : Option String :=
  if looksLikeQuestion t then some t else none

/-- Modelled from the spec: `QuestionDetector.isValidQuestion` (same missing
file).  Section 4.5 stage 5 describes two redundant validators combined with
OR, the second being the shape recognizer; the structural one is modelled by
the same recognizer applied to the candidate text. -/
def isValidQuestionModel (t : String) : Bool := looksLikeQuestion t

/-- `baseText` (line 365): the detector's isolated text when it fires,
otherwise the full transcription text. -/
def baseTextOf (t : String) : String :=
  match detectQuestionModel t with
  | some d => d
  | none => t

/-- The per-part body of the `questionParts.map` on lines 378–403: preface
trim, minimum-length gate, the OR of the two validators, then algorithmic
refinement.  Returns `none` where the source returns `null`. -/
def processCandidate (part : String) : Option DQ :=
  let core := trimPreface part
  if core = "" then none
  else if (jsTrim core).length < 2 then none
  else if !isValidQuestionModel (jsTrim core) && !looksLikeQuestion core then none
  else some ⟨jsTrim core, refineQuestionAlgorithmically core⟩

/-- `detectAndRefineQuestions` (lines 352–426) as the list of questions it
pushes and emits, in emission order: the too-short pre-filter (line 357),
`baseText`, `splitIntoQuestions`, then the map over parts with the `null`
results filtered out (lines 378–415; `Promise.all` preserves array order, and
the emission loop walks that array in order). -/
def detectAndRefineQuestions (text : String) : List DQ :=
  if (jsTrim text).length < 3 then []
  else ((splitIntoQuestions (baseTextOf text)).map processCandidate).filterMap id

/-! ## Streaming state and the orchestrator (AudioStreamProcessor fields, lines 17–37, 80–90) -/

/-- The mutable state of `AudioStreamProcessor`: the `AudioStreamState`
fields the claims mention (`isListening`, `isProcessing`, `questionBuffer`,
`lastActivityTime`) together with the processor's private accumulation and
hint-tracking fields. -/
structure AudioState where
  isListening : Bool
  isProcessing : Bool
  questionBuffer : List DQ
  lastActivityTime : Nat
  currentAudioData : List (List ℚ)
  wordCount : Nat
  accumulatedSamples : Nat
  lastChunkTime : Nat
  lastQuestionHintTime : Nat
  recentAudioBuffer : List String
  streamingBuffer : String
  lastStreamingCheck : Nat
deriving DecidableEq

/-- The constructor's initial state (lines 80–90 and field initializers). -/
def initialState : AudioState :=
  { isListening := false
    isProcessing := false
    questionBuffer := []
    lastActivityTime := 0
    currentAudioData := []
    wordCount := 0
    accumulatedSamples := 0
    lastChunkTime := 0
    lastQuestionHintTime := 0
    recentAudioBuffer := []
    streamingBuffer := ""
    lastStreamingCheck := 0 }

/-- Configuration fields the claims mention (lines 68–77; defaults
`sampleRate = 16000`, `maxWords = 40`, `questionDetectionEnabled = true`). -/
structure AudioConfig where
  sampleRate : Nat
  maxWords : Nat
  questionDetectionEnabled : Bool
deriving DecidableEq

/-- The constructor's default configuration. -/
def defaultConfig : AudioConfig :=
  { sampleRate := 16000, maxWords := 40, questionDetectionEnabled := true }

/-- The consumer-facing events the processor emits (state snapshots carry the
two flags the claims consult). -/
inductive AudioEvent where
  | stateChanged (listening processing : Bool)
  | chunkRecorded (samples : List ℚ) (words : Nat)
  | transcriptionCompleted (text : String)
  | questionDetected (q : DQ)
  | errorEvent
deriving DecidableEq

/-! ## Question-hint tracking (lines 608–635, 696–705) -/

/-- `quickQuestionPatterns` (lines 620–623). -/
def quickQuestionPatterns : List String :=
  ["どう", "どの", "どこ", "いつ", "なぜ", "なん", "何", "だれ", "誰",
   "ですか", "ますか", "でしょうか", "か？", "か。"]

/-- `hasRecentQuestionActivity` (lines 608–635).  Returns the decision and
the (possibly updated) `lastQuestionHintTime`: the hint time is refreshed to
`now` exactly when a pattern match asserts a fresh hint.  `Date.now()` never
precedes a stored time, and for `now < last` the JS negative difference and
the truncated Nat difference land on the same side of every comparison
used. -/
def hasRecentQuestionActivity (st : AudioState) (now : Nat) : Bool × Nat :=
  if now - st.lastQuestionHintTime < 3000 then (true, st.lastQuestionHintTime)
  else
    let recentText := jsToLower (joinSpace st.recentAudioBuffer)
    if quickQuestionPatterns.any (fun p => strHas recentText p) then (true, now)
    else (false, st.lastQuestionHintTime)

/-- `updateRecentAudioBuffer` (lines 696–705): push the lower-cased text and
keep only the last 10 entries. -/
def updateRecentAudioBuffer (st : AudioState) (text : String) : AudioState :=
  if (jsTrim text).length = 0 then st
  else
    let b := st.recentAudioBuffer ++ [jsToLower text]
    { st with recentAudioBuffer := if 10 < b.length then b.drop 1 else b }

/-! ## Chunk boundary policy (shouldCreateChunk, lines 193–221) -/

/-- `shouldCreateChunk` (lines 193–221).  Returns the decision and the
updated `lastQuestionHintTime` (the only state `hasRecentQuestionActivity`
mutates).  The source computes
`accumulatedDuration = (accumulatedSamples / sampleRate) * 1000` in floats
and compares `≥ 2000`; for a positive integral sample rate this is the
integer inequality `2000 * sampleRate ≤ accumulatedSamples * 1000` (float
rounding cannot cross the threshold at these magnitudes). -/
def shouldCreateChunk (cfg : AudioConfig) (st : AudioState) (now : Nat) :
    Bool × Nat :=
  ((decide (2000 * cfg.sampleRate ≤ st.accumulatedSamples * 1000) ||
    decide (4000 ≤ now - st.lastChunkTime) ||
    decide (cfg.maxWords ≤ st.wordCount) ||
    (hasRecentQuestionActivity st now).1),
   (hasRecentQuestionActivity st now).2)

/-! ## Streaming question detection (performStreamingQuestionDetection, lines 640–691) -/

/-- `.*C` for a character class `C`: some class character occurs after a run
of non-newline characters (JS `.` does not match `\n`). -/
def dotStarThenClass (cls : List Char) : List Char → Bool
  | [] => false
  | c :: t => cls.contains c || (c != '\n' && dotStarThenClass cls t)

/-- Match, at the head of `l`: literal `lit`, one character of `cls1`,
then `.*` and one character of `clsEnd`.  Embeds regexes of the shape
`/lit[…].* […]/` — note `[です|でしょう|思い|考え]` and `[が|を|で|に]` are
character classes, so exactly one of the listed characters (or `|`) is
matched. -/
def matchLitClassDotClass (lit cls1 clsEnd : List Char) (l : List Char) : Bool :=
  leadsWith lit l &&
    (match l.drop lit.length with
     | c :: t => cls1.contains c && dotStarThenClass clsEnd t
     | [] => false)

/-- Match at the head of `l`: literal `lit`, then `.*` and one character of
`clsEnd`. -/
def matchLitDotClass (lit clsEnd : List Char) (l : List Char) : Bool :=
  leadsWith lit l && dotStarThenClass clsEnd (l.drop lit.length)

/-- Match at the head of `l`: one character of `cls1`, literal `lit`, then
one character of `clsEnd` (shape of `/[です|ます]か[？。]/`). -/
def matchClassLitClass (cls1 lit clsEnd : List Char) (l : List Char) : Bool :=
  match l with
  | c :: t =>
    cls1.contains c && leadsWith lit t &&
      (match t.drop lit.length with
       | e :: _ => clsEnd.contains e
       | [] => false)
  | [] => false

/-- Match at the head of `l`: literal `lit` then one character of `clsEnd`
(shape of `/でしょうか[？。]/`). -/
def matchLitClass (lit clsEnd : List Char) (l : List Char) : Bool :=
  leadsWith lit l &&
    (match l.drop lit.length with
     | e :: _ => clsEnd.contains e
     | [] => false)

/-- `.test`: the head matcher succeeds at some position of the string. -/
def anyPos (p : List Char → Bool) : List Char → Bool
  | [] => p []
  | c :: t => p (c :: t) || anyPos p t

/-- `streamingQuestionPatterns.some (p => p.test streamingText)`
(lines 662–674).  The bracketed parts of the source regexes are character
classes (including the literal `|`), embedded verbatim as the character
lists below. -/
def streamingQuestionMatch (s : String) : Bool :=
  let l := s.data
  anyPos (matchLitClassDotClass "どう".data "です|でしょう|思い|考え".data "か？".data) l ||
  anyPos (matchLitClassDotClass "何".data "が|を|で|に".data "か？".data) l ||
  anyPos (matchLitDotClass "いつ".data "か？".data) l ||
  anyPos (matchLitDotClass "どこ".data "か？".data) l ||
  anyPos (matchLitDotClass "だれ".data "か？".data) l ||
  anyPos (matchLitDotClass "なぜ".data "か？".data) l ||
  anyPos (matchClassLitClass "です|ます".data "か".data "？。".data) l ||
  anyPos (matchLitClass "でしょうか".data "？。".data) l

/-- The buffer update at the top of `performStreamingQuestionDetection`
(lines 643–649): append `' ' + newText`, then keep the last 500 characters
(`slice(-500)`). -/
def streamBufUpdate (buf newText : String) : String :=
  let b1 := buf ++ " " ++ newText
  if 500 < b1.length then ⟨b1.data.drop (b1.data.length - 500)⟩ else b1

/-- `performStreamingQuestionDetection` (lines 640–691).  Returns the updated
state and, when the positive scan triggers the out-of-band cut, the drained
chunk `(samples, wordCount)`.  The source fires `createAndProcessChunk()`
without awaiting it; its synchronous part (the drain and the chunk-recorded
emission) is modelled here, and the chunk's own transcription round-trip is a
separate `transcribeChunk` application by the orchestrator. -/
def performStreamingQuestionDetection (st : AudioState) (newText : String)
    (now : Nat) : AudioState × Option (List ℚ × Nat) :=
  let buf := streamBufUpdate st.streamingBuffer newText
  if now - st.lastStreamingCheck < 500 then
    ({ st with streamingBuffer := buf }, none)
  else
    let st2 := { st with streamingBuffer := buf, lastStreamingCheck := now }
    if streamingQuestionMatch (jsTrim (jsToLower buf)) then
      if st2.currentAudioData ≠ [] then
        ({ st2 with currentAudioData := [], wordCount := 0,
                    accumulatedSamples := 0, lastChunkTime := now,
                    streamingBuffer := "" },
         some (st2.currentAudioData.flatten, st2.wordCount))
      else ({ st2 with streamingBuffer := "" }, none)
    else (st2, none)

/-! ## Transcription and chunk processing (lines 122–188, 226–347) -/

/-- `transcribeChunk` (lines 270–347), with the external gateway round-trip
(temp-file plus Whisper call) abstracted as its outcome `gw` (`.ok text` or
`.error ()`).  The function catches its own failures, so it is total: on
a gateway error it emits exactly the error event between the two
state-changed snapshots and clears `isProcessing` in the `finally` block; on
success it runs hint update, streaming detection (whose triggered cut is
surfaced as a chunk-recorded event) and question extraction. -/
def transcribeChunk (cfg : AudioConfig) (st : AudioState)
    (gw : Except Unit String) (now : Nat) : AudioState × List AudioEvent :=
  if !cfg.questionDetectionEnabled then (st, [])
  else
    match gw with
    | .error _ =>
      ({ st with isProcessing := false },
       [.stateChanged st.isListening true, .errorEvent,
        .stateChanged st.isListening false])
    | .ok text =>
      let st1 := updateRecentAudioBuffer { st with isProcessing := true } text
      let ps := performStreamingQuestionDetection st1 text now
      let cutEvs : List AudioEvent :=
        match ps.2 with
        | some c => [.chunkRecorded c.1 c.2]
        | none => []
      let qs := if jsTrim text ≠ "" then detectAndRefineQuestions text else []
      let st3 := { ps.1 with questionBuffer := ps.1.questionBuffer ++ qs,
                             isProcessing := false }
      (st3,
       [.stateChanged st.isListening true, .transcriptionCompleted text] ++
         cutEvs ++ qs.map .questionDetected ++
         (if qs = [] then [] else [.stateChanged st.isListening true]) ++
         [.stateChanged st.isListening false])

/-- `createAndProcessChunk` (lines 226–265): no-op on an empty accumulator,
otherwise drain every pending array into one chunk (concatenation in order),
reset the accumulation fields, emit chunk-recorded and transcribe. -/
def createAndProcessChunk (cfg : AudioConfig) (st : AudioState)
    (gw : Except Unit String) (now : Nat) : AudioState × List AudioEvent :=
  if st.currentAudioData = [] then (st, [])
  else
    let combined := st.currentAudioData.flatten
    let wc := st.wordCount
    let st1 := { st with currentAudioData := [], wordCount := 0,
                         accumulatedSamples := 0, lastChunkTime := now }
    let t := transcribeChunk cfg st1 gw now
    (t.1, .chunkRecorded combined wc :: t.2)

/-- The accumulation step of `processAudioChunk` (lines 157–172): append the
converted sample batch, bump the counters, refresh activity, and initialize
`lastChunkTime` on first use. -/
def ingestUpdate (st : AudioState) (batch : List ℚ) (now : Nat) : AudioState :=
  { st with currentAudioData := st.currentAudioData ++ [batch],
            accumulatedSamples := st.accumulatedSamples + batch.length,
            lastActivityTime := now,
            lastChunkTime := if st.lastChunkTime = 0 then now else st.lastChunkTime }

/-- `processAudioChunk` (lines 148–188): ignore the batch when not
listening; otherwise accumulate, consult the boundary policy and cut when it
fires.  `batch` is the `Float32Array` obtained from the PCM bytes (the claims
concern samples, not the byte decoding).  Every failure inside is caught by
the source (the gateway failure inside `transcribeChunk` never reaches this
frame), so the call always resolves: the embedding is a total function. -/
def processAudioChunk (cfg : AudioConfig) (st : AudioState) (batch : List ℚ)
    (gw : Except Unit String) (now : Nat) : AudioState × List AudioEvent :=
  if !st.isListening then (st, [])
  else
    let st1 := ingestUpdate st batch now
    let sc := shouldCreateChunk cfg st1 now
    let st2 := { st1 with lastQuestionHintTime := sc.2 }
    if sc.1 then createAndProcessChunk cfg st2 gw now else (st2, [])

/-- `startListening` (lines 98–117): no-op when already listening. -/
def startListening (st : AudioState) (now : Nat) : AudioState × List AudioEvent :=
  if st.isListening then (st, [])
  else ({ st with isListening := true, lastActivityTime := now },
        [.stateChanged true st.isProcessing])

/-- `stopListening` (lines 122–143): no-op when idle; otherwise clear the
two flags, the pending audio arrays and the word counter, and emit one
state-changed event.  (The source does not touch `accumulatedSamples` or
`lastChunkTime` here.) -/
def stopListening (st : AudioState) : AudioState × List AudioEvent :=
  if !st.isListening then (st, [])
  else
    ({ st with isListening := false, isProcessing := false,
               currentAudioData := [], wordCount := 0 },
     [.stateChanged false false])

end CueMe

namespace CueMe

/-! ## Session traces and sample accounting (for the conservation invariant) -/

/-- External stimuli of one session, in arrival order: lifecycle calls,
batch ingestion (with the gateway outcome its possible cut would see), and an
out-of-band cut request — the streaming early trigger and a boundary-policy
cut both invoke `createAndProcessChunk`, so a `cut` command models either
firing at an arbitrary moment, including immediately after another cut. -/
inductive Cmd where
  | start (now : Nat)
  | stop
  | ingest (batch : List ℚ) (gw : Except Unit String) (now : Nat)
  | cut (gw : Except Unit String) (now : Nat)

/-- State plus ghost accounting: total samples accepted while listening and
total samples discarded by `stopListening`. -/
structure GhostAcc where
  st : AudioState
  ingested : Nat
  discarded : Nat

/-- Samples currently pending in the accumulator. -/
def buffered (st : AudioState) : Nat :=
  (st.currentAudioData.map List.length).sum

/-- Total samples carried by the chunk-recorded events of a trace. -/
def emittedSamples : List AudioEvent → Nat
  | [] => 0
  | .chunkRecorded s _ :: es => s.length + emittedSamples es
  | _ :: es => emittedSamples es

/-- Sample count of an optional streaming-cut chunk. -/
def cutSamples : Option (List ℚ × Nat) → Nat
  | some c => c.1.length
  | none => 0

/-- One command against the processor, with the ghost counters updated. -/
def stepCmd (cfg : AudioConfig) (acc : GhostAcc) : Cmd → GhostAcc × List AudioEvent
  | .start now =>
    let r := startListening acc.st now
    ({ acc with st := r.1 }, r.2)
  | .stop =>
    let r := stopListening acc.st
    ({ st := r.1, ingested := acc.ingested,
       discarded := acc.discarded +
         (if acc.st.isListening then buffered acc.st else 0) }, r.2)
  | .ingest b gw now =>
    let r := processAudioChunk cfg acc.st b gw now
    ({ st := r.1,
       ingested := acc.ingested + (if acc.st.isListening then b.length else 0),
       discarded := acc.discarded }, r.2)
  | .cut gw now =>
    let r := createAndProcessChunk cfg acc.st gw now
    ({ acc with st := r.1 }, r.2)

/-- Run a whole trace, concatenating the emitted events in order. -/
def runTrace (cfg : AudioConfig) : GhostAcc → List Cmd → GhostAcc × List AudioEvent
  | acc, [] => (acc, [])
  | acc, c :: cs =>
    let r := stepCmd cfg acc c
    let r2 := runTrace cfg r.1 cs
    (r2.1, r.2 ++ r2.2)

theorem emittedSamples_append (a b : List AudioEvent) :
    emittedSamples (a ++ b) = emittedSamples a + emittedSamples b := by
  induction a with
  | nil => simp [emittedSamples]
  | cons e es ih => cases e <;> simp [emittedSamples, ih] <;> omega

theorem emittedSamples_map_questions (qs : List DQ) :
    emittedSamples (qs.map AudioEvent.questionDetected) = 0 := by
  induction qs with
  | nil => rfl
  | cons q qs ih => simpa [emittedSamples] using ih

@[simp] theorem updateRecentAudioBuffer_currentAudioData (st : AudioState) (t : String) :
    (updateRecentAudioBuffer st t).currentAudioData = st.currentAudioData := by
  unfold updateRecentAudioBuffer; split <;> rfl

@[simp] theorem updateRecentAudioBuffer_isListening (st : AudioState) (t : String) :
    (updateRecentAudioBuffer st t).isListening = st.isListening := by
  unfold updateRecentAudioBuffer; split <;> rfl

theorem perform_conserve (st : AudioState) (t : String) (now : Nat) :
    buffered (performStreamingQuestionDetection st t now).1 +
      cutSamples (performStreamingQuestionDetection st t now).2 = buffered st := by
  unfold performStreamingQuestionDetection
  dsimp only
  split_ifs with h1 h2 h3 <;>
    simp [cutSamples, buffered, List.length_flatten]

theorem perform_isListening (st : AudioState) (t : String) (now : Nat) :
    (performStreamingQuestionDetection st t now).1.isListening = st.isListening := by
  unfold performStreamingQuestionDetection
  dsimp only
  split_ifs <;> rfl

theorem transcribe_conserve (cfg : AudioConfig) (st : AudioState)
    (gw : Except Unit String) (now : Nat) :
    buffered (transcribeChunk cfg st gw now).1 +
      emittedSamples (transcribeChunk cfg st gw now).2 = buffered st := by
  unfold transcribeChunk
  dsimp only
  split_ifs with h
  · simp [emittedSamples]
  · cases gw with
    | error e => simp [buffered, emittedSamples]
    | ok text =>
      have hp := perform_conserve
        (updateRecentAudioBuffer { st with isProcessing := true } text) text now
      have hb : buffered (updateRecentAudioBuffer { st with isProcessing := true } text)
          = buffered st := by
        simp [buffered]
      rw [hb] at hp
      cases hps : (performStreamingQuestionDetection
          (updateRecentAudioBuffer { st with isProcessing := true } text) text now) with
      | mk st2 cut =>
        rw [hps] at hp
        simp only [hps]
        cases cut with
        | none =>
          simp only [cutSamples] at hp
          simp only [buffered] at hp
          simp [buffered, emittedSamples_append, emittedSamples,
            emittedSamples_map_questions]
          split_ifs <;> simp [emittedSamples] <;> omega
        | some c =>
          simp only [cutSamples] at hp
          simp only [buffered] at hp
          simp [buffered, emittedSamples_append, emittedSamples,
            emittedSamples_map_questions]
          split_ifs <;> simp [emittedSamples] <;> omega

theorem transcribe_isListening (cfg : AudioConfig) (st : AudioState)
    (gw : Except Unit String) (now : Nat) :
    (transcribeChunk cfg st gw now).1.isListening = st.isListening := by
  unfold transcribeChunk
  dsimp only
  split_ifs with h
  · rfl
  · cases gw with
    | error e => rfl
    | ok text =>
      cases hps : (performStreamingQuestionDetection
          (updateRecentAudioBuffer { st with isProcessing := true } text) text now) with
      | mk st2 cut =>
        have := perform_isListening
          (updateRecentAudioBuffer { st with isProcessing := true } text) text now
        rw [hps] at this
        simp only [hps]
        simpa using this

theorem create_conserve (cfg : AudioConfig) (st : AudioState)
    (gw : Except Unit String) (now : Nat) :
    buffered (createAndProcessChunk cfg st gw now).1 +
      emittedSamples (createAndProcessChunk cfg st gw now).2 = buffered st := by
  unfold createAndProcessChunk
  dsimp only
  split_ifs with h
  · simp [emittedSamples]
  · have ht := transcribe_conserve cfg
      { st with currentAudioData := [], wordCount := 0,
                accumulatedSamples := 0, lastChunkTime := now } gw now
    simp only [buffered] at ht
    simp only [List.map_nil, List.sum_nil] at ht
    simp only [buffered, emittedSamples]
    simp [List.length_flatten]
    omega

theorem create_isListening (cfg : AudioConfig) (st : AudioState)
    (gw : Except Unit String) (now : Nat) :
    (createAndProcessChunk cfg st gw now).1.isListening = st.isListening := by
  unfold createAndProcessChunk
  dsimp only
  split_ifs with h
  · rfl
  · rw [transcribe_isListening]

theorem pac_conserve (cfg : AudioConfig) (st : AudioState) (batch : List ℚ)
    (gw : Except Unit String) (now : Nat) (h : st.isListening = true) :
    buffered (processAudioChunk cfg st batch gw now).1 +
      emittedSamples (processAudioChunk cfg st batch gw now).2
      = buffered st + batch.length := by
  unfold processAudioChunk
  dsimp only
  simp only [h, Bool.not_true, Bool.false_eq_true, if_false]
  split_ifs with hc
  · rw [create_conserve]
    simp [buffered, ingestUpdate]
  · simp [buffered, emittedSamples, ingestUpdate]

theorem pac_isListening (cfg : AudioConfig) (st : AudioState) (batch : List ℚ)
    (gw : Except Unit String) (now : Nat) :
    (processAudioChunk cfg st batch gw now).1.isListening = st.isListening := by
  unfold processAudioChunk
  dsimp only
  split_ifs with h hc
  · rfl
  · rw [create_isListening]
    simp [ingestUpdate]
  · simp [ingestUpdate]

theorem step_conserve (cfg : AudioConfig) (acc : GhostAcc) (c : Cmd) :
    (stepCmd cfg acc c).1.ingested + acc.discarded + buffered acc.st
      = acc.ingested + (stepCmd cfg acc c).1.discarded +
          buffered (stepCmd cfg acc c).1.st + emittedSamples (stepCmd cfg acc c).2 := by
  cases c with
  | start now =>
    unfold stepCmd startListening
    dsimp only
    split_ifs <;> simp [buffered, emittedSamples]
  | stop =>
    unfold stepCmd stopListening
    dsimp only
    rcases hL : acc.st.isListening with _ | _ <;>
      simp [hL, buffered, emittedSamples] <;> omega
  | ingest b gw now =>
    rcases hL : acc.st.isListening with _ | _
    · have hid : processAudioChunk cfg acc.st b gw now = (acc.st, []) := by
        unfold processAudioChunk; simp [hL]
      unfold stepCmd
      dsimp only
      rw [hid]
      simp [hL, emittedSamples]
    · have hpc := pac_conserve cfg acc.st b gw now hL
      unfold stepCmd
      dsimp only
      simp only [hL, if_true]
      omega
  | cut gw now =>
    have hcc := create_conserve cfg acc.st gw now
    unfold stepCmd
    dsimp only
    omega

theorem run_conserve (cfg : AudioConfig) (cmds : List Cmd) : ∀ acc : GhostAcc,
    (runTrace cfg acc cmds).1.ingested + acc.discarded + buffered acc.st
      = acc.ingested + (runTrace cfg acc cmds).1.discarded +
          buffered (runTrace cfg acc cmds).1.st +
          emittedSamples (runTrace cfg acc cmds).2 := by
  induction cmds with
  | nil => intro acc; simp [runTrace, emittedSamples]
  | cons c cs ih =>
    intro acc
    have hs := step_conserve cfg acc c
    have hr := ih (stepCmd cfg acc c).1
    unfold runTrace
    simp only [emittedSamples_append]
    omega

end CueMe

namespace CueMe

/-! ## Idle-state invariant: no audio is pending while not listening -/

/-- While the processor is not listening, the accumulator is empty:
ingestion is guarded by the listening flag and `stopListening` clears the
pending arrays. -/
def idleEmpty (st : AudioState) : Prop :=
  st.isListening = false → st.currentAudioData = []

theorem step_idleEmpty (cfg : AudioConfig) (acc : GhostAcc) (c : Cmd)
    (h : idleEmpty acc.st) : idleEmpty (stepCmd cfg acc c).1.st := by
  cases c with
  | start now =>
    unfold stepCmd startListening
    dsimp only
    split_ifs with hs
    · exact h
    · intro hf; simp at hf
  | stop =>
    unfold stepCmd stopListening
    dsimp only
    split_ifs with hs
    · exact h
    · intro _; rfl
  | ingest b gw now =>
    intro hf
    unfold stepCmd at hf ⊢
    dsimp only at hf ⊢
    rcases hL : acc.st.isListening with _ | _
    · have hid : processAudioChunk cfg acc.st b gw now = (acc.st, []) := by
        unfold processAudioChunk; simp [hL]
      rw [hid] at hf ⊢
      exact h hf
    · rw [pac_isListening] at hf
      rw [hL] at hf
      simp at hf
  | cut gw now =>
    intro hf
    unfold stepCmd at hf ⊢
    dsimp only at hf ⊢
    rcases hL : acc.st.isListening with _ | _
    · have hempty : acc.st.currentAudioData = [] := h hL
      have hid : createAndProcessChunk cfg acc.st gw now = (acc.st, []) := by
        unfold createAndProcessChunk; simp [hempty]
      rw [hid] at hf ⊢
      exact hempty
    · rw [create_isListening] at hf
      rw [hL] at hf
      simp at hf

theorem run_idleEmpty (cfg : AudioConfig) (cmds : List Cmd) : ∀ acc : GhostAcc,
    idleEmpty acc.st → idleEmpty (runTrace cfg acc cmds).1.st := by
  induction cmds with
  | nil => intro acc h; exact h
  | cons c cs ih =>
    intro acc h
    unfold runTrace
    exact ih (stepCmd cfg acc c).1 (step_idleEmpty cfg acc c h)

/-! ## Claim theorems -/

/-- C1: over every session trace (lifecycle calls, batch ingestions and
arbitrarily interleaved boundary-policy and streaming-triggered cuts), the
samples ingested while listening equal the samples of all emitted chunks plus
the samples discarded on stop plus anything still pending; when the trace
ends not listening, the pending term is zero, so ingested = emitted chunks +
discarded on stop — no sample lost, none duplicated across two chunks. -/
theorem C1_sample_conservation (cfg : AudioConfig) (cmds : List Cmd) :
    (runTrace cfg ⟨initialState, 0, 0⟩ cmds).1.ingested
      = emittedSamples (runTrace cfg ⟨initialState, 0, 0⟩ cmds).2
        + (runTrace cfg ⟨initialState, 0, 0⟩ cmds).1.discarded
        + buffered (runTrace cfg ⟨initialState, 0, 0⟩ cmds).1.st
    ∧ ((runTrace cfg ⟨initialState, 0, 0⟩ cmds).1.st.isListening = false →
        (runTrace cfg ⟨initialState, 0, 0⟩ cmds).1.ingested
          = emittedSamples (runTrace cfg ⟨initialState, 0, 0⟩ cmds).2
            + (runTrace cfg ⟨initialState, 0, 0⟩ cmds).1.discarded) := by
  have hc := run_conserve cfg cmds ⟨initialState, 0, 0⟩
  have he : idleEmpty (runTrace cfg ⟨initialState, 0, 0⟩ cmds).1.st :=
    run_idleEmpty cfg cmds ⟨initialState, 0, 0⟩ (fun _ => rfl)
  have h0 : buffered initialState = 0 := rfl
  simp only [h0] at hc
  constructor
  · simp only [buffered] at hc ⊢
    omega
  · intro hidle
    have hb : (runTrace cfg ⟨initialState, 0, 0⟩ cmds).1.st.currentAudioData = [] :=
      he hidle
    simp only [buffered, hb, List.map_nil, List.sum_nil] at hc
    omega

/-- Trace used to witness C1 at a concrete run: start, ingest two samples
(the fresh-session hint window triggers an immediate cut whose transcription
fails), a redundant extra cut, stop. -/
def c1Trace : List Cmd :=
  [.start 5, .ingest [0, 1] (.error ()) 5, .cut (.error ()) 6, .stop]

theorem C1_witness :
    (runTrace defaultConfig ⟨initialState, 0, 0⟩ c1Trace).1.ingested
      = emittedSamples (runTrace defaultConfig ⟨initialState, 0, 0⟩ c1Trace).2
        + (runTrace defaultConfig ⟨initialState, 0, 0⟩ c1Trace).1.discarded :=
  (C1_sample_conservation defaultConfig c1Trace).2 (by decide)

/-- C2: when the gateway call for a chunk cut during ingestion fails, the
batch-submission call resolves (the embedding is a total function, matching
the source's catch blocks) having emitted exactly one error event, with the
processing flag false and the listening flag still true afterwards. -/
theorem C2_gateway_failure (cfg : AudioConfig) (st : AudioState) (batch : List ℚ)
    (now : Nat)
    (hE : cfg.questionDetectionEnabled = true)
    (hL : st.isListening = true)
    (hCut : (shouldCreateChunk cfg (ingestUpdate st batch now) now).1 = true) :
    (processAudioChunk cfg st batch (.error ()) now).2.count .errorEvent = 1 ∧
    (processAudioChunk cfg st batch (.error ()) now).1.isProcessing = false ∧
    (processAudioChunk cfg st batch (.error ()) now).1.isListening = true := by
  unfold processAudioChunk
  dsimp only
  simp only [hL, Bool.not_true, Bool.false_eq_true, if_false, hCut, if_true]
  unfold createAndProcessChunk transcribeChunk
  dsimp only
  simp [hE, hL, ingestUpdate, List.count_cons]

/-- A listening state holding two seconds of audio, so that the next ingested
batch crosses the duration ceiling. -/
def c2State : AudioState :=
  { initialState with isListening := true, accumulatedSamples := 32000 }

theorem C2_witness :
    (processAudioChunk defaultConfig c2State [0] (.error ()) 5000).2.count .errorEvent = 1 ∧
    (processAudioChunk defaultConfig c2State [0] (.error ()) 5000).1.isProcessing = false ∧
    (processAudioChunk defaultConfig c2State [0] (.error ()) 5000).1.isListening = true :=
  C2_gateway_failure defaultConfig c2State [0] 5000 (by decide) (by decide) (by decide)

/-- C3: the boundary decision of `shouldCreateChunk` is exactly the
disjunction of the four predicates: accumulated duration at least 2000 ms
(`(samples / sampleRate) * 1000 ≥ 2000`, i.e. `2000·rate ≤ samples·1000`),
at least 4000 ms since the last boundary, word count at least the configured
maximum, and a question-likely hint asserted within the last 3000 ms (the
hint time after the check — a fresh pattern match in the recent-audio buffer
asserts the hint now). -/
theorem C3_boundary_decision (cfg : AudioConfig) (st : AudioState) (now : Nat) :
    (shouldCreateChunk cfg st now).1 = true ↔
      (2000 * cfg.sampleRate ≤ st.accumulatedSamples * 1000 ∨
       4000 ≤ now - st.lastChunkTime ∨
       cfg.maxWords ≤ st.wordCount ∨
       now - (shouldCreateChunk cfg st now).2 < 3000) := by
  unfold shouldCreateChunk hasRecentQuestionActivity
  dsimp only
  split_ifs with h1 h2
  · simp [h1]
  · simp [Nat.sub_self]
  · simp [h1, h2, or_assoc]

theorem C3_witness :
    (shouldCreateChunk defaultConfig initialState 0).1 = true ↔
      (2000 * defaultConfig.sampleRate ≤ initialState.accumulatedSamples * 1000 ∨
       4000 ≤ 0 - initialState.lastChunkTime ∨
       defaultConfig.maxWords ≤ initialState.wordCount ∨
       0 - (shouldCreateChunk defaultConfig initialState 0).2 < 3000) :=
  C3_boundary_decision defaultConfig initialState 0

/-- C4: for any non-empty candidate text, refinement never returns the empty
string, and whenever the refined result has fewer than 3 characters or fewer
than 2 characters once the question marks are removed and the rest trimmed,
the original candidate text is returned unchanged. -/
theorem C4_refinement_guard (text : String) (h : text ≠ "") :
    refineQuestionAlgorithmically text ≠ "" ∧
    ((refineCore text).length < 3 ∨
      (jsTrim ⟨(refineCore text).data.filter (fun c => !(c == '？' || c == '?'))⟩).length < 2 →
      refineQuestionAlgorithmically text = text) := by
  unfold refineQuestionAlgorithmically
  dsimp only
  split_ifs with hg
  · exact ⟨h, fun _ => rfl⟩
  · constructor
    · intro he
      rw [he] at hg
      exact hg (Or.inl (by decide))
    · intro hh
      exact absurd hh hg

theorem C4_witness :
    refineQuestionAlgorithmically "えー" ≠ "" ∧
    ((refineCore "えー").length < 3 ∨
      (jsTrim ⟨(refineCore "えー").data.filter (fun c => !(c == '？' || c == '?'))⟩).length < 2 →
      refineQuestionAlgorithmically "えー" = "えー") :=
  C4_refinement_guard "えー" (by decide)

/-- The transcript of the C5 test vector. -/
def t5 : String := "えーと、今日の予定はどうなっていますか？"

/-- C5 counterexample: for the given transcript the single emitted question's
refined text is `えーと 今日の予定はどうなっていますか？` — it still begins
with the filler えーと (the 、 after it becomes a space), contradicting the
claim that the leading filler is removed: えーと is not in `fillerWords`
(only えーっと, えと and あーと are), and `trimPreface`'s anchored pattern
requires a whitespace character after the filler, which Japanese text lacks. -/
theorem C5_counterexample :
    (detectAndRefineQuestions t5).map DQ.refinedText
      = ["えーと 今日の予定はどうなっていますか？"] ∧
    leadsWith "えーと".data "えーと 今日の予定はどうなっていますか？".data = true := by
  decide

/-- C5 (amended): processing the transcript emits exactly one
DetectedQuestion; its refined text preserves the interrogative core (it ends
in 予定はどうなっていますか？, with the terminal ？ restored), but the
leading filler えーと is retained, its trailing 、 replaced by a space. -/
theorem C5_amended :
    detectAndRefineQuestions t5
      = [⟨"えーと、今日の予定はどうなっていますか",
          "えーと 今日の予定はどうなっていますか？"⟩] ∧
    trailsWith "予定はどうなっていますか？"
      "えーと 今日の予定はどうなっていますか？" = true := by
  decide

/-- The transcript of the C6 test vector. -/
def t6 : String := "えー、あのー、？"

/-- C6 counterexample: the filler-plus-question-mark transcript emits zero
DetectedQuestions — the terminal ？ is consumed as a sentence delimiter by
`splitIntoQuestions` and the remaining filler-only segment fails its
question-shape filter, so no candidate ever reaches the refinement fallback. -/
theorem C6_counterexample : detectAndRefineQuestions t6 = [] := by decide

/-- C6 (amended): the refinement degeneracy fallback does return the original
text verbatim when a filler-only candidate reaches refinement, but the
transcript えー、あのー、？ never reaches it: `splitIntoQuestions` discards
the candidate, and the pipeline emits no DetectedQuestion for it. -/
theorem C6_amended :
    splitIntoQuestions t6 = [] ∧ detectAndRefineQuestions t6 = [] ∧
    refineQuestionAlgorithmically t6 = t6 := by
  decide

/-- The transcript of the C7 test vector. -/
def t7 : String := "何時に始まりますか？それから誰が参加しますか？"

/-- C7: the two-question transcript joined by それから emits exactly two
DetectedQuestions in left-to-right order, and in general the emitted list is
the order-preserving filterMap of the split candidates — candidates are
emitted in their order within the transcript, never reordered by confidence
or length. -/
theorem C7_two_questions_ordered :
    detectAndRefineQuestions t7
      = [⟨"何時に始まりますか", "何時に始まりますか？"⟩,
         ⟨"誰が参加しますか", "誰が参加しますか？"⟩] ∧
    (∀ t : String, detectAndRefineQuestions t
      = if (jsTrim t).length < 3 then []
        else (splitIntoQuestions (baseTextOf t)).filterMap processCandidate) := by
  constructor
  · decide
  · intro t
    unfold detectAndRefineQuestions
    split_ifs with h
    · rfl
    · rw [List.filterMap_map]; rfl

theorem C7_witness :
    detectAndRefineQuestions t7
      = if (jsTrim t7).length < 3 then []
        else (splitIntoQuestions (baseTextOf t7)).filterMap processCandidate :=
  (C7_two_questions_ordered).2 t7

/-- A listening state with pending audio and nonzero accumulation counters,
used to exhibit what `stopListening` clears and what it leaves. -/
def c8State : AudioState :=
  { initialState with isListening := true, currentAudioData := [[0]],
                      wordCount := 2, accumulatedSamples := 7, lastChunkTime := 5 }

/-- C8 counterexample: stopping while listening does not clear the
accumulation counter `accumulatedSamples` (nor `lastChunkTime`) — the claim
that all accumulation counters tracking the in-flight audio are cleared is
false. -/
theorem C8_counterexample :
    (stopListening c8State).1.accumulatedSamples ≠ 0 ∧
    (stopListening c8State).1.lastChunkTime ≠ 0 := by decide

/-- C8 (amended): stopping while listening sets both flags false, clears the
pending audio arrays and the word counter, emits a single state-changed event
(no chunk-recorded event, so no final chunk is flushed) — but leaves
`accumulatedSamples` and `lastChunkTime` unchanged; stopping while idle is a
complete no-op with no events. -/
theorem C8_stop_behavior (st : AudioState) :
    (st.isListening = true →
      stopListening st
        = ({ st with isListening := false, isProcessing := false,
                     currentAudioData := [], wordCount := 0 },
           [.stateChanged false false])) ∧
    (st.isListening = false → stopListening st = (st, [])) := by
  constructor <;> intro h <;> unfold stopListening <;> simp [h]

theorem C8_witness :
    stopListening c8State
      = ({ c8State with isListening := false, isProcessing := false,
                        currentAudioData := [], wordCount := 0 },
         [.stateChanged false false]) :=
  (C8_stop_behavior c8State).1 rfl

/-- C9: after any streaming-detection call the text buffer holds at most 500
characters; if less than 500 ms have passed since the last check the call
only appends to the buffer (no scan, no cut, `lastStreamingCheck`
unchanged); a triggered cut implies audio was pending, the buffer was
cleared and the accumulator drained; and with an empty accumulator no cut is
ever requested. -/
theorem C9_streaming_invariants (st : AudioState) (newText : String) (now : Nat) :
    (performStreamingQuestionDetection st newText now).1.streamingBuffer.length ≤ 500 ∧
    (now - st.lastStreamingCheck < 500 →
      performStreamingQuestionDetection st newText now
        = ({ st with streamingBuffer := streamBufUpdate st.streamingBuffer newText },
           none)) ∧
    ((performStreamingQuestionDetection st newText now).2.isSome = true →
      st.currentAudioData ≠ [] ∧
      (performStreamingQuestionDetection st newText now).1.streamingBuffer = "" ∧
      (performStreamingQuestionDetection st newText now).1.currentAudioData = []) ∧
    (st.currentAudioData = [] →
      (performStreamingQuestionDetection st newText now).2 = none) := by
  have hlen : (streamBufUpdate st.streamingBuffer newText).length ≤ 500 := by
    unfold streamBufUpdate
    dsimp only
    split_ifs with h
    · simp only [String.length, List.length_drop] at h ⊢
      omega
    · omega
  refine ⟨?_, ?_, ?_, ?_⟩
  · unfold performStreamingQuestionDetection
    dsimp only
    split_ifs with h1 h2 h3
    · exact hlen
    · simp [String.length]
    · simp [String.length]
    · exact hlen
  · intro h
    unfold performStreamingQuestionDetection
    dsimp only
    rw [if_pos h]
  · intro h
    unfold performStreamingQuestionDetection at h ⊢
    dsimp only at h ⊢
    split_ifs at h ⊢ with h1 h2 h3
    · simp at h
    · exact ⟨h3, rfl, rfl⟩
    · simp at h
    · simp at h
  · intro h
    unfold performStreamingQuestionDetection
    dsimp only
    split_ifs with h1 h2 h3
    · rfl
    · exact absurd h h3
    · rfl
    · rfl

theorem C9_witness :
    (performStreamingQuestionDetection initialState "です" 0).1.streamingBuffer.length ≤ 500 :=
  (C9_streaming_invariants initialState "です" 0).1

/-- C10: submitting an audio batch while not listening returns the state
unchanged with no events — a complete no-op at the public interface (the
embedding is a total function, so the call resolves without throwing). -/
theorem C10_idle_ingest_noop (cfg : AudioConfig) (st : AudioState) (batch : List ℚ)
    (gw : Except Unit String) (now : Nat) (h : st.isListening = false) :
    processAudioChunk cfg st batch gw now = (st, []) := by
  unfold processAudioChunk
  simp [h]

theorem C10_witness :
    processAudioChunk defaultConfig initialState [0] (.ok "") 7 = (initialState, []) :=
  C10_idle_ingest_noop defaultConfig initialState [0] (.ok "") 7 rfl

end CueMe
